import Mathlib

/-!
Shallow embedding of the SPA demo servers (server-perfect.py and
simple-server.py): the request-routing logic of PerfectSPAHandler.do_GET,
the fixed health payload, the OPTIONS handling of both handler variants,
and the startup checks of main.  Strings are modelled as Lean String;
the filesystem is an abstract predicate fileExists from relative paths
(leading slashes stripped) to Bool.
-/

namespace SPA

/-- The kinds of reserved payloads the enhanced handler can serve without
touching the filesystem (handle_api_request, handle_metrics_request,
handle_health_check, serve_service_worker, serve_manifest). -/
inductive ReservedKind where
  | api
  | metrics
  | health
  | serviceWorker
  | manifest
deriving DecidableEq

/-- The routing decision taken by PerfectSPAHandler.do_GET before it
delegates to the inherited static file server: serve a reserved payload,
rewrite self.path to another path and then serve statically, or serve the
original path statically. -/
inductive Decision where
  | serveReserved (kind : ReservedKind)
  | rewriteTo (target : String)
  | serveStatic
deriving DecidableEq

/-- Bool test that the list l begins with the list pat; models the Python
str.startswith once lifted to strings. -/
def listLeads : List Char → List Char → Bool
  | [], _ => true
  | _ :: _, [] => false
  | a :: pat, b :: l => a == b && listLeads pat l

/-- Models the Python str.startswith: s starts with pat. -/
def strBegins (s pat : String) : Bool :=
  listLeads pat.data s.data

/-- Models the Python str.endswith: s ends with pat. -/
def strEndsIn (s pat : String) : Bool :=
  listLeads pat.data.reverse s.data.reverse

/-- The characters of a request target before the first query or fragment
delimiter; models the path component extracted by urlparse for the
origin-form request targets the handler receives. -/
def urlPathChars (l : List Char) : List Char :=
  l.takeWhile fun c => !(c == '?') && !(c == '#')

/-- The path component of a request target, as computed by
urlparse(self.path).path for origin-form targets: everything before the
first query or fragment delimiter. -/
def urlPath (s : String) : String :=
  String.mk (urlPathChars s.data)

/-- Models the Python self.path.lstrip with the slash argument: remove every
leading slash character. -/
def lstripSlash (s : String) : String :=
  String.mk (s.data.dropWhile fun c => c == '/')

/-- Models the Python membership test of a character in a string. -/
def containsChar (s : String) (c : Char) : Bool :=
  s.data.contains c

/-- The routing decision of PerfectSPAHandler.do_GET (server-perfect.py,
lines 56 to 94), translated branch by branch.  rawPath is self.path (the
request target, query string included); fileExists is the filesystem
oracle standing for os.path.exists on the path joined to DEMO_DIR after
self.path.lstrip has removed the leading slashes.  The five reserved
checks compare the parsed path (query stripped); the /shift rewrite, the
existence test and the dot test of the SPA fallback all use the raw
self.path, exactly as in the source. -/
def route (rawPath : String) (fileExists : String → Bool) : Decision :=
  if strBegins (urlPath rawPath) "/api/" then .serveReserved .api
  else if urlPath rawPath == "/metrics" then .serveReserved .metrics
  else if urlPath rawPath == "/health" then .serveReserved .health
  else if urlPath rawPath == "/sw.js" then .serveReserved .serviceWorker
  else if urlPath rawPath == "/manifest.json" then .serveReserved .manifest
  else if rawPath == "/shift-system" || rawPath == "/shift" then
    .rewriteTo "/shift-system-spa.html"
  else if rawPath != "/" && !(fileExists (lstripSlash rawPath)) then
    if !(strBegins rawPath "/api/") && !(containsChar rawPath '.') then
      .rewriteTo "/demo-perfect.html"
    else .serveStatic
  else .serveStatic

/-- Modelled from the spec: the static-serving collaborator (the inherited
SimpleHTTPRequestHandler, standard library, outside src/) "returns a
not-found error if it is absent".  Its translate_path strips the query and
fragment and resolves relative to the serving root, so the status is 404
exactly when no file exists at the stripped path. -/
def staticStatus (fileExists : String → Bool) (p : String) : Nat :=
  if fileExists (lstripSlash (urlPath p)) then 200 else 404

/-- Startup-relevant facts about the environment of main
(server-perfect.py, lines 242 to 298): whether the serving root DEMO_DIR
exists, whether demo-perfect.html exists under it, whether the dist
directory exists, and whether binding the listening socket succeeds. -/
structure StartupEnv where
  rootExists : Bool
  demoFileExists : Bool
  distDirExists : Bool
  bindSucceeds : Bool
deriving DecidableEq

/-- Outcome of running main up to the point where requests could be
served: either the process exited with the given code before listening, or
the server reached serve_forever. -/
inductive StartupOutcome where
  | exitedBeforeListening (code : Nat)
  | listening
deriving DecidableEq

/-- The startup logic of main (server-perfect.py): exit 1 when DEMO_DIR is
missing, exit 1 when demo-perfect.html is missing, print only a warning
when dist is missing, and exit 1 when binding the socket raises an OSError
(the except branches all call sys.exit with 1).  Only when all checks pass
does the process reach serve_forever. -/
def serverMain (env : StartupEnv) : StartupOutcome :=
  if !env.rootExists then .exitedBeforeListening 1
  else if !env.demoFileExists then .exitedBeforeListening 1
  else if !env.bindSucceeds then .exitedBeforeListening 1
  else .listening

/-- Observable server state a health response could in principle depend on
(uptime, number of requests served so far, wall-clock time).  The handler
reads none of it. -/
structure ServerObservation where
  uptimeMillis : Nat
  requestsServed : Nat
  clockMillis : Nat
deriving DecidableEq

/-- The exact body written by handle_health_check (server-perfect.py,
lines 150 to 172): json.dumps of the literal dict with indent 2. -/
def healthBody : String :=
  "\x7b\n  \"status\": \"healthy\",\n  \"version\": \"2.0.0\",\n  \"timestamp\": \"2025-09-26T10:30:00Z\",\n  \"services\": \x7b\n    \"spa_framework\": \"active\",\n    \"performance_monitoring\": \"active\",\n    \"security_layer\": \"active\"\n  \x7d,\n  \"ai_collaboration\": \x7b\n    \"claude_code\": \"active\",\n    \"gemini\": \"standby\",\n    \"hybrid_mode\": \"enabled\"\n  \x7d\n\x7d"

/-- handle_health_check as a function of the observable server state: it
sends status 200 and writes the literal healthBody, reading nothing from
the state, the clock or the request beyond the path that routed to it. -/
def handleHealthCheck (_ : ServerObservation) : Nat × String :=
  (200, healthBody)

/-- An HTTP response reduced to what the OPTIONS claims need: the status
code and the headers added by the handler. -/
structure HttpResponse where
  status : Nat
  headers : List (String × String)
deriving DecidableEq

/-- The CORS headers added unconditionally by end_headers of
PerfectSPAHandler (server-perfect.py, lines 25 to 30). -/
def corsHdrs : List (String × String) :=
  [("Access-Control-Allow-Origin", "*"),
   ("Access-Control-Allow-Methods", "GET, POST, PUT, DELETE, OPTIONS"),
   ("Access-Control-Allow-Headers", "Content-Type, Authorization, X-Requested-With, X-AI-Assistant"),
   ("Access-Control-Expose-Headers", "X-Performance-Metrics, X-AI-Analysis")]

/-- The security headers added unconditionally by end_headers
(server-perfect.py, lines 32 to 36). -/
def securityHdrs : List (String × String) :=
  [("X-Content-Type-Options", "nosniff"),
   ("X-Frame-Options", "DENY"),
   ("X-XSS-Protection", "1; mode=block"),
   ("Referrer-Policy", "strict-origin-when-cross-origin")]

/-- The cache headers end_headers adds depending on the extension of
self.path (server-perfect.py, lines 38 to 42). -/
def cacheHdrs (path : String) : List (String × String) :=
  if strEndsIn path ".js" || strEndsIn path ".css" then
    [("Cache-Control", "public, max-age=31536000, immutable")]
  else if strEndsIn path ".html" then
    [("Cache-Control", "no-cache, no-store, must-revalidate")]
  else []

/-- The informational AI headers added unconditionally by end_headers
(server-perfect.py, lines 44 to 47). -/
def aiHdrs : List (String × String) :=
  [("X-AI-Claude", "active"),
   ("X-AI-Gemini", "available"),
   ("X-AI-Collaboration", "enabled")]

/-- All headers end_headers of PerfectSPAHandler adds for a request whose
self.path is the given string. -/
def endHeadersAdded (path : String) : List (String × String) :=
  corsHdrs ++ securityHdrs ++ cacheHdrs path ++ aiHdrs

/-- do_OPTIONS of PerfectSPAHandler (server-perfect.py, lines 51 to 54):
send_response 200 followed by end_headers. -/
def perfectDoOPTIONS (path : String) : HttpResponse :=
  ⟨200, endHeadersAdded path⟩

/-- Modelled from the spec: SimpleHandler in simple-server.py defines only
do_GET (and inherits do_HEAD), no do_OPTIONS; the dispatch of the base
handler class (standard library, outside src/) answers a request whose
method has no matching handler method with a 501 Unsupported-method error,
so an OPTIONS request to the minimal variant yields status 501 and never
reaches the end_headers of SimpleHandler. -/
def simpleDoOPTIONS : HttpResponse :=
  ⟨501, []⟩

/-- Auxiliary: a successful listLeads test exposes the leading pattern. -/
theorem listLeads_exists (pat : List Char) {l : List Char} (h : listLeads pat l = true) :
    ∃ t, l = pat ++ t := by
  induction pat generalizing l with
  | nil => exact ⟨l, rfl⟩
  | cons a pat ih =>
    cases l with
    | nil => simp [listLeads] at h
    | cons b l =>
      simp only [listLeads, Bool.and_eq_true, beq_iff_eq] at h
      obtain ⟨rfl, h2⟩ := h
      obtain ⟨t, rfl⟩ := ih h2
      exact ⟨t, rfl⟩

/-- C2: every request target that starts with the prefix /api/ is routed
to the reserved api payload decision, whatever the filesystem holds. -/
theorem api_prefix_reserved (p : String) (f : String → Bool)
    (h : strBegins p "/api/" = true) :
    route p f = .serveReserved .api := by
  obtain ⟨d⟩ := p
  obtain ⟨t, rfl⟩ := listLeads_exists "/api/".data h
  rfl

/-- Witness for C2 at the concrete target /api/users with every file
present. -/
theorem api_prefix_reserved_witness :
    strBegins "/api/users" "/api/" = true
    ∧ route "/api/users" (fun _ => true) = .serveReserved .api :=
  ⟨by decide, api_prefix_reserved "/api/users" (fun _ => true) (by decide)⟩

/-- C3: the exact raw targets /shift and /shift-system are both rewritten
to /shift-system-spa.html, for every filesystem state. -/
theorem shift_paths_rewrite (f : String → Bool) :
    route "/shift" f = .rewriteTo "/shift-system-spa.html"
    ∧ route "/shift-system" f = .rewriteTo "/shift-system-spa.html" :=
  ⟨rfl, rfl⟩

/-- C6: the exact paths /metrics, /health, /sw.js and /manifest.json each
yield their reserved payload decision, for every filesystem state; since
the filesystem oracle is universally quantified, the decision is the same
whether or not a file of that name exists under the root, so reserved
dispatch takes precedence over static lookup and SPA rewriting. -/
theorem reserved_paths_take_precedence (f : String → Bool) :
    route "/metrics" f = .serveReserved .metrics
    ∧ route "/health" f = .serveReserved .health
    ∧ route "/sw.js" f = .serveReserved .serviceWorker
    ∧ route "/manifest.json" f = .serveReserved .manifest :=
  ⟨rfl, rfl, rfl, rfl⟩

/-- C7: /health always routes to the reserved health decision and the body
written by handle_health_check is one fixed JSON literal whose status field
is healthy; for any two server observations (uptime, request count, clock)
the two bodies are identical. -/
theorem health_body_constant (f : String → Bool) (o₁ o₂ : ServerObservation) :
    route "/health" f = .serveReserved .health
    ∧ handleHealthCheck o₁ = handleHealthCheck o₂
    ∧ (handleHealthCheck o₁).2 = healthBody
    ∧ strBegins healthBody "\x7b\n  \"status\": \"healthy\"" = true :=
  ⟨rfl, rfl, rfl, by decide⟩

/-- C9: startup exits with code 1 before listening whenever the serving
root is missing, or demo-perfect.html is missing, or binding the port
fails; the dist directory plays no role. -/
theorem startup_fail_fast (root demo dist bindOk : Bool)
    (h : root = false ∨ demo = false ∨ bindOk = false) :
    serverMain ⟨root, demo, dist, bindOk⟩ = .exitedBeforeListening 1 := by
  rcases h with rfl | rfl | rfl
  · rfl
  · cases root <;> rfl
  · cases root <;> cases demo <;> rfl

/-- Witness for C9 at a concrete environment with a missing root. -/
theorem startup_fail_fast_witness :
    (false = false ∨ true = false ∨ true = false)
    ∧ serverMain ⟨false, true, true, true⟩ = .exitedBeforeListening 1 :=
  ⟨Or.inl rfl, startup_fail_fast false true true true (Or.inl rfl)⟩

/-- C10: reserved dispatch strips the query string, so /health?x=1 still
serves the health payload; but the /shift rewrite, the existence check and
the dot test use the raw target, so /shift?x=1 is never rewritten to
/shift-system-spa.html (with no matching file it falls back to
/demo-perfect.html instead), a dot inside the query suppresses the SPA
fallback for /post?v=1.2, while the dot-free /post does fall back. -/
theorem query_handling_asymmetry (f : String → Bool)
    (h1 : f (lstripSlash "/shift?x=1") = false)
    (h2 : f (lstripSlash "/post?v=1.2") = false)
    (h3 : f (lstripSlash "/post") = false) :
    route "/health?x=1" f = .serveReserved .health
    ∧ route "/shift?x=1" f ≠ .rewriteTo "/shift-system-spa.html"
    ∧ route "/shift?x=1" f = .rewriteTo "/demo-perfect.html"
    ∧ route "/post?v=1.2" f = .serveStatic
    ∧ route "/post" f = .rewriteTo "/demo-perfect.html" := by
  refine ⟨rfl, ?_, ?_, ?_, ?_⟩
  · cases hf : f (lstripSlash "/shift?x=1") <;>
      · simp only [route]
        rw [hf]
        decide
  · simp only [route]
    rw [h1]
    decide
  · simp only [route]
    rw [h2]
    decide
  · simp only [route]
    rw [h3]
    decide

/-- Witness for C10 on the empty filesystem. -/
theorem query_handling_asymmetry_witness :
    ((fun _ => false : String → Bool) (lstripSlash "/shift?x=1") = false
      ∧ (fun _ => false : String → Bool) (lstripSlash "/post?v=1.2") = false
      ∧ (fun _ => false : String → Bool) (lstripSlash "/post") = false)
    ∧ (route "/health?x=1" (fun _ => false) = .serveReserved .health
      ∧ route "/shift?x=1" (fun _ => false) ≠ .rewriteTo "/shift-system-spa.html"
      ∧ route "/shift?x=1" (fun _ => false) = .rewriteTo "/demo-perfect.html"
      ∧ route "/post?v=1.2" (fun _ => false) = .serveStatic
      ∧ route "/post" (fun _ => false) = .rewriteTo "/demo-perfect.html") :=
  ⟨⟨rfl, rfl, rfl⟩, query_handling_asymmetry (fun _ => false) rfl rfl rfl⟩

/-- C5: a non-reserved target containing a dot is never SPA-rewritten: the
decision is to serve the literal file, and when no file exists at the
stripped path the static layer answers 404 (the process keeps serving;
NotFound is a per-request outcome, not an exit). -/
theorem dotted_missing_static_404 (p : String) (f : String → Bool)
    (h1 : strBegins (urlPath p) "/api/" = false)
    (h2 : (urlPath p == "/metrics") = false)
    (h3 : (urlPath p == "/health") = false)
    (h4 : (urlPath p == "/sw.js") = false)
    (h5 : (urlPath p == "/manifest.json") = false)
    (hdot : containsChar p '.' = true)
    (hmiss : f (lstripSlash (urlPath p)) = false) :
    route p f = .serveStatic ∧ staticStatus f p = 404 := by
  have h6a : (p == "/shift-system") = false := by
    cases hb : p == "/shift-system" with
    | false => rfl
    | true => exact absurd (eq_of_beq hb ▸ hdot) (by decide)
  have h6b : (p == "/shift") = false := by
    cases hb : p == "/shift" with
    | false => rfl
    | true => exact absurd (eq_of_beq hb ▸ hdot) (by decide)
  constructor
  · simp only [route]
    rw [h1, h2, h3, h4, h5, h6a, h6b, hdot]
    simp
  · simp only [staticStatus]
    rw [hmiss]
    rfl

/-- Witness for C5 at /styles.css on the empty filesystem. -/
theorem dotted_missing_static_404_witness :
    (strBegins (urlPath "/styles.css") "/api/" = false
      ∧ (urlPath "/styles.css" == "/metrics") = false
      ∧ (urlPath "/styles.css" == "/health") = false
      ∧ (urlPath "/styles.css" == "/sw.js") = false
      ∧ (urlPath "/styles.css" == "/manifest.json") = false
      ∧ containsChar "/styles.css" '.' = true
      ∧ (fun _ => false : String → Bool) (lstripSlash (urlPath "/styles.css")) = false)
    ∧ (route "/styles.css" (fun _ => false) = .serveStatic
      ∧ staticStatus (fun _ => false) "/styles.css" = 404) :=
  ⟨⟨by decide, by decide, by decide, by decide, by decide, by decide, rfl⟩,
    dotted_missing_static_404 "/styles.css" (fun _ => false)
      (by decide) (by decide) (by decide) (by decide) (by decide) (by decide) rfl⟩

/-- C4 fails as stated: the target /shift meets every premise of the claim
(not reserved, not the root path, dot-free, not under /api/, no file named
shift on the, here empty, filesystem), yet routing rewrites it to
/shift-system-spa.html, not to /demo-perfect.html. -/
theorem spa_fallback_claim_false :
    strBegins (urlPath "/shift") "/api/" = false
    ∧ (urlPath "/shift" == "/metrics") = false
    ∧ (urlPath "/shift" == "/health") = false
    ∧ (urlPath "/shift" == "/sw.js") = false
    ∧ (urlPath "/shift" == "/manifest.json") = false
    ∧ ("/shift" == "/") = false
    ∧ containsChar "/shift" '.' = false
    ∧ strBegins "/shift" "/api/" = false
    ∧ (fun _ => false : String → Bool) (lstripSlash "/shift") = false
    ∧ route "/shift" (fun _ => false) = .rewriteTo "/shift-system-spa.html"
    ∧ route "/shift" (fun _ => false) ≠ .rewriteTo "/demo-perfect.html" := by
  decide

/-- C4 amended: additionally requiring the target to differ from /shift
and /shift-system, every non-reserved, dot-free target other than the root
path whose stripped form names no existing file is rewritten to
/demo-perfect.html. -/
theorem spa_fallback_amended (p : String) (f : String → Bool)
    (h1 : strBegins (urlPath p) "/api/" = false)
    (h2 : (urlPath p == "/metrics") = false)
    (h3 : (urlPath p == "/health") = false)
    (h4 : (urlPath p == "/sw.js") = false)
    (h5 : (urlPath p == "/manifest.json") = false)
    (h6 : (p == "/shift-system") = false)
    (h7 : (p == "/shift") = false)
    (h8 : (p == "/") = false)
    (h9 : containsChar p '.' = false)
    (h10 : strBegins p "/api/" = false)
    (h11 : f (lstripSlash p) = false) :
    route p f = .rewriteTo "/demo-perfect.html" := by
  have h8' : (p != "/") = true := by
    show (!(p == "/")) = true
    rw [h8]
    rfl
  simp only [route]
  rw [h1, h2, h3, h4, h5, h6, h7, h8', h9, h10, h11]
  simp

/-- Witness for the amended C4 at /dashboard on the empty filesystem. -/
theorem spa_fallback_amended_witness :
    (strBegins (urlPath "/dashboard") "/api/" = false
      ∧ (urlPath "/dashboard" == "/metrics") = false
      ∧ (urlPath "/dashboard" == "/health") = false
      ∧ (urlPath "/dashboard" == "/sw.js") = false
      ∧ (urlPath "/dashboard" == "/manifest.json") = false
      ∧ ("/dashboard" == "/shift-system") = false
      ∧ ("/dashboard" == "/shift") = false
      ∧ ("/dashboard" == "/") = false
      ∧ containsChar "/dashboard" '.' = false
      ∧ strBegins "/dashboard" "/api/" = false
      ∧ (fun _ => false : String → Bool) (lstripSlash "/dashboard") = false)
    ∧ route "/dashboard" (fun _ => false) = .rewriteTo "/demo-perfect.html" :=
  ⟨⟨by decide, by decide, by decide, by decide, by decide, by decide, by decide,
      by decide, by decide, by decide, rfl⟩,
    spa_fallback_amended "/dashboard" (fun _ => false)
      (by decide) (by decide) (by decide) (by decide) (by decide) (by decide)
      (by decide) (by decide) (by decide) (by decide) rfl⟩

/-- C1 fails as stated: on a filesystem holding demo-perfect.html but not
shift-system-spa.html, every startup check passes and the server reaches
listening, yet routing /shift rewrites to /shift-system-spa.html, a path
that resolves to no file under the serving root; no startup check guards
that target. -/
theorem rewrite_target_invariant_false :
    serverMain ⟨true, true, true, true⟩ = .listening
    ∧ route "/shift" (fun s => s == "demo-perfect.html")
        = .rewriteTo "/shift-system-spa.html"
    ∧ (fun s => s == "demo-perfect.html") (lstripSlash "/shift-system-spa.html")
        = false := by
  decide

/-- C1 amended: every rewrite targets /shift-system-spa.html or
/demo-perfect.html; the latter target resolves to an existing file
whenever demo-perfect.html exists under the root, which startup enforces,
while the former is not checked at startup; and when demo-perfect.html is
missing, startup exits with code 1 before listening, whatever the other
conditions. -/
theorem rewrite_target_invariant_amended (f : String → Bool) (p target : String)
    (root dist bindOk : Bool)
    (hdemo : f "demo-perfect.html" = true)
    (hroute : route p f = .rewriteTo target) :
    (target = "/shift-system-spa.html"
      ∨ (target = "/demo-perfect.html" ∧ f (lstripSlash target) = true))
    ∧ serverMain ⟨root, false, dist, bindOk⟩ = .exitedBeforeListening 1 := by
  constructor
  · simp only [route] at hroute
    split at hroute
    · cases hroute
    · split at hroute
      · cases hroute
      · split at hroute
        · cases hroute
        · split at hroute
          · cases hroute
          · split at hroute
            · cases hroute
            · split at hroute
              · cases hroute
                exact Or.inl rfl
              · split at hroute
                · split at hroute
                  · cases hroute
                    exact Or.inr ⟨rfl, hdemo⟩
                  · cases hroute
                · cases hroute
  · cases root <;> rfl

/-- Witness for the amended C1: with only demo-perfect.html present, the
fallback rewrite of /dash targets that existing file; and a concrete
startup environment missing it exits with code 1. -/
theorem rewrite_target_invariant_amended_witness :
    ((fun s => s == "demo-perfect.html" : String → Bool) "demo-perfect.html" = true
      ∧ route "/dash" (fun s => s == "demo-perfect.html")
          = .rewriteTo "/demo-perfect.html")
    ∧ (("/demo-perfect.html" = "/shift-system-spa.html"
        ∨ ("/demo-perfect.html" = "/demo-perfect.html"
          ∧ (fun s => s == "demo-perfect.html" : String → Bool)
              (lstripSlash "/demo-perfect.html") = true))
      ∧ serverMain ⟨true, false, true, true⟩ = .exitedBeforeListening 1) :=
  ⟨⟨by decide, by decide⟩,
    rewrite_target_invariant_amended (fun s => s == "demo-perfect.html")
      "/dash" "/demo-perfect.html" true true true (by decide) (by decide)⟩

/-- C8 fails as stated for the minimal variant: SimpleHandler defines no
do_OPTIONS, so an OPTIONS request is answered by the inherited dispatch
with status 501, not 200. -/
theorem options_claim_false_minimal :
    simpleDoOPTIONS.status = 501 ∧ simpleDoOPTIONS.status ≠ 200 := by
  decide

/-- C8 amended: the enhanced handler answers OPTIONS on any path with
status 200 and the allow-all CORS header among the headers it sends, while
the minimal handler, lacking a do_OPTIONS method, answers 501. -/
theorem options_cors_amended (path : String) :
    (perfectDoOPTIONS path).status = 200
    ∧ ("Access-Control-Allow-Origin", "*") ∈ (perfectDoOPTIONS path).headers
    ∧ simpleDoOPTIONS.status = 501 := by
  refine ⟨rfl, ?_, rfl⟩
  simp [perfectDoOPTIONS, endHeadersAdded, corsHdrs]

end SPA
